import Mathlib

/-!
Verification of the Nighty Sale backend's order-and-payment core.

The payment controller (`src/controllers/paymentController.js`) is embedded
shallowly: the Mongo collection of orders becomes an association list keyed by
order id, `Date.now()` becomes an explicit `now : Nat` parameter, and the
HMAC-SHA256 hex digest primitive becomes an explicit function parameter
`hmac : String → String → String` (key, message ↦ hex digest), since the claims
under study concern the controller's use of the digest, not the digest itself.

The order controller (`controllers/orderController.js`) and the Order model are
referenced by the routes but their sources are not in the repository snapshot;
where a claim depends on them, the definitions are modelled from the spec and
say so in their doc comments.
-/

namespace NightySale

/-- Association-list lookup by id, the embedding of `Model.findById(id)`:
the first entry with the given key, if any. -/
def findById {α : Type} : List (Nat × α) → Nat → Option α
  | [], _ => none
  | (k, v) :: rest, i => if k = i then some v else findById rest i

/-- Association-list update by id, the embedding of `document.save()` on a
document fetched by `findById`: replaces the value at the key if present,
leaves the list unchanged otherwise. -/
def saveById {α : Type} : List (Nat × α) → Nat → α → List (Nat × α)
  | [], _, _ => []
  | (k, v) :: rest, i, v' =>
      if k = i then (k, v') :: rest else (k, v) :: saveById rest i v'

/-- Embedded `order.paymentResult` subdocument written by the controller
(`paymentController.js` lines 63–68). -/
structure PaymentResult where
  id : String
  status : String
  update_time : Nat
  email_address : String
deriving Repr, DecidableEq

/-- Fulfillment status of an order.  The Order model file is not in the
snapshot; the status values are the spec's state machine (§4.4).  The payment
controller never reads or writes this field. -/
inductive OrderStatus
  | pendingPayment | paid | processing | shipped | delivered
  | paymentFailed | cancelled
deriving Repr, DecidableEq

/-- Embedded order document: exactly the fields the payment controller touches
(`isPaid`, `paidAt`, `paymentResult`), plus the `status` field from the spec's
data model, which the administrative status update mutates. -/
structure Order where
  isPaid : Bool
  paidAt : Option Nat
  status : OrderStatus
  paymentResult : Option PaymentResult
deriving Repr, DecidableEq

/-- The orders collection. -/
abbrev OrdersDb := List (Nat × Order)

/-- The authenticated caller attached by the auth middleware; the controller
reads only `req.user.email`. -/
structure AuthUser where
  email : String
deriving Repr, DecidableEq

/-- Embedded request body of `POST /api/payment/verification`.  The controller
destructures exactly `razorpay_order_id`, `razorpay_payment_id`,
`razorpay_signature` and `orderId`; the `email` field stands for any
body-supplied contact field a client may send, which the controller never
reads. -/
structure VerificationBody where
  razorpay_order_id : String
  razorpay_payment_id : String
  razorpay_signature : String
  orderId : Nat
  email : String
deriving Repr, DecidableEq

/-- Embedded HTTP response: status code plus the JSON `success` and `message`
fields the controller sends. -/
structure HttpResponse where
  status : Nat
  success : Bool
  message : String
deriving Repr, DecidableEq

/-- Embedding of `paymentVerification` (`paymentController.js` lines 38–84).
`hmac` abstracts `crypto.createHmac("sha256", secret).update(m).digest("hex")`;
`now` abstracts `Date.now()`.  The function recomputes the signature over
`razorpay_order_id + "|" + razorpay_payment_id`, and on a match finds the
order and, when present, sets `isPaid`, `paidAt` and `paymentResult` and saves
it, answering 200; when the order is absent it still answers 200; on a
signature mismatch it answers 400 and performs no database access. -/
def paymentVerification (hmac : String → String → String) (secret : String)
    (now : Nat) (user : AuthUser) (db : OrdersDb) (body : VerificationBody) :
    HttpResponse × OrdersDb :=
  let payload := body.razorpay_order_id ++ "|" ++ body.razorpay_payment_id
  let expectedSignature := hmac secret payload
  if expectedSignature = body.razorpay_signature then
    match findById db body.orderId with
    | some order =>
        let updated : Order :=
          { order with
              isPaid := true
              paidAt := some now
              paymentResult := some
                { id := body.razorpay_payment_id
                  status := "success"
                  update_time := now
                  email_address := user.email } }
        ({ status := 200, success := true,
           message := "Payment verified and Order Updated" },
         saveById db body.orderId updated)
    | none =>
        ({ status := 200, success := true,
           message := "Payment verified and Order Updated" }, db)
  else
    ({ status := 400, success := false, message := "Invalid Signature" }, db)

/-- The Razorpay order options built by `checkout`
(`paymentController.js` lines 17–21). -/
structure RazorpayOptions where
  amount : Int
  currency : String
  receipt : String
deriving Repr, DecidableEq

/-- Embedding of `checkout` (`paymentController.js` lines 14–33): builds the
gateway order options from the body's `amount` alone.  The orders database is
passed as an argument because the controller has access to it (the Order model
is required at the top of the file), which lets us state that the options do
not depend on it.  `Number(amount * 100)` on an exact numeric amount is
`amount * 100`. -/
def checkout (db : OrdersDb) (now : Nat) (amount : Int) : RazorpayOptions :=
  { amount := amount * 100
    currency := "INR"
    receipt := "receipt_order_" ++ toString now }

/-! Inventory ledger and order creation.  The order controller's source is not
in the snapshot (only `routes/orderRoutes.js` naming `createOrder`,
`updateOrderToPaid`, `updateOrderStatus` is); the definitions below are
modelled from the spec.  The Product model (`models/Product.js`) supplies the
`countInStock` field (a number constrained non-negative), modelled as an `Int`
so that non-negativity is a provable property rather than a typing artifact. -/

/-- The product collection, reduced to what the ledger touches: each product's
`countInStock`. -/
abbrev Stocks := List (Nat × Int)

/-- Modelled from the spec: Inventory Ledger `reserve(productId, quantity)`
(§4.1), absent from the snapshot with the order controller.  A single atomic
conditional decrement: decrement iff current stock is at least the quantity;
`none` is `InsufficientStock` (also when the product row is absent). -/
def reserve (stocks : Stocks) (productId : Nat) (quantity : Int) :
    Option Stocks :=
  match findById stocks productId with
  | none => none
  | some s => if quantity ≤ s then some (saveById stocks productId (s - quantity))
              else none

/-- Modelled from the spec: Inventory Ledger `release(productId, quantity)`
(§4.1), absent from the snapshot with the order controller.  Best-effort
restore: adds the quantity back, a no-op on an absent product row. -/
def release (stocks : Stocks) (productId : Nat) (quantity : Int) : Stocks :=
  match findById stocks productId with
  | none => stocks
  | some s => saveById stocks productId (s + quantity)

/-- A line item of an order-creation request. -/
structure LineItem where
  productId : Nat
  quantity : Int
deriving Repr, DecidableEq

/-- Modelled from the spec: line-item validation in Order Store `create`
(§4.2) — quantity positive and product present. -/
def validItem (stocks : Stocks) (it : LineItem) : Bool :=
  decide (0 < it.quantity) && (findById stocks it.productId).isSome

/-- Modelled from the spec: the reservation loop of Order Store `create`
(§4.2).  Reserves the items in order; on the first failure it rolls back every
reservation already made for this request via `release` while unwinding, and
returns the resulting stocks as the error value. -/
def reserveAll (stocks : Stocks) : List LineItem → Except Stocks Stocks
  | [] => Except.ok stocks
  | it :: rest =>
    match reserve stocks it.productId it.quantity with
    | none => Except.error stocks
    | some s' =>
      match reserveAll s' rest with
      | Except.error sFail =>
          Except.error (release sFail it.productId it.quantity)
      | Except.ok sDone => Except.ok sDone

/-- Result of order creation, carrying the stocks after the call. -/
inductive CreateResult
  | created (stocks : Stocks) (status : OrderStatus)
  | insufficientStock (stocks : Stocks)
  | invalidLineItem (stocks : Stocks)
deriving Repr, DecidableEq

/-- Modelled from the spec: Order Store `create(buyerId, lineItems)` (§4.2),
absent from the snapshot.  Validates every line item, then reserves all of
them all-or-nothing; on a failed reservation all prior reservations are rolled
back and `InsufficientStock` is returned; on success the order is persisted in
`PendingPayment`. -/
def createOrder (stocks : Stocks) (items : List LineItem) : CreateResult :=
  if items.all (validItem stocks) then
    match reserveAll stocks items with
    | Except.error s => CreateResult.insufficientStock s
    | Except.ok s' => CreateResult.created s' OrderStatus.pendingPayment
  else CreateResult.invalidLineItem stocks

/-- Modelled from the spec: the immediate-successor relation of the order
status state machine (§4.4) used by the administrative update. -/
def immediateSuccessor : OrderStatus → Option OrderStatus
  | OrderStatus.paid => some OrderStatus.processing
  | OrderStatus.processing => some OrderStatus.shipped
  | OrderStatus.shipped => some OrderStatus.delivered
  | _ => none

/-- Modelled from the spec: `updateOrderStatus` (`PUT /orders/:id/status`,
admin; §4.4, §6), absent from the snapshot.  Rejects with `InvalidTransition`
(409) unless the requested state is the immediate successor of the current
one; on success it updates only the `status` field of the order. -/
def updateOrderStatus (db : OrdersDb) (orderId : Nat) (target : OrderStatus) :
    HttpResponse × OrdersDb :=
  match findById db orderId with
  | none => ({ status := 404, success := false, message := "Order not found" }, db)
  | some o =>
    if immediateSuccessor o.status = some target then
      ({ status := 200, success := true, message := "Status updated" },
       saveById db orderId { o with status := target })
    else
      ({ status := 409, success := false, message := "InvalidTransition" }, db)

/-- One observable operation of the system on the orders collection: a payment
verification request (embedded from the source) or an administrative status
update (modelled from the spec). -/
inductive SysStep : OrdersDb → OrdersDb → Prop
  | payment (hmac : String → String → String) (secret : String) (now : Nat)
      (user : AuthUser) (body : VerificationBody) (db : OrdersDb) :
      SysStep db (paymentVerification hmac secret now user db body).2
  | adminStatus (orderId : Nat) (target : OrderStatus) (db : OrdersDb) :
      SysStep db (updateOrderStatus db orderId target).2

/-! Helper lemmas about the association-list store. -/

theorem findById_saveById_self {α : Type} (db : List (Nat × α)) (k : Nat)
    (v v' : α) (h : findById db k = some v) :
    findById (saveById db k v') k = some v' := by
  induction db with
  | nil => simp [findById] at h
  | cons hd tl ih =>
    obtain ⟨k0, v0⟩ := hd
    by_cases hk : k0 = k
    · subst hk
      simp [findById, saveById]
    · simp [findById, saveById, hk] at h ⊢
      exact ih h

theorem findById_saveById_ne {α : Type} (db : List (Nat × α)) (k i : Nat)
    (v' : α) (h : i ≠ k) : findById (saveById db k v') i = findById db i := by
  induction db with
  | nil => simp [saveById]
  | cons hd tl ih =>
    obtain ⟨k0, v0⟩ := hd
    by_cases hk : k0 = k
    · subst hk
      have hne : k0 ≠ i := fun e => h e.symm
      simp [findById, saveById, hne]
    · simp only [saveById, if_neg hk, findById]
      rw [ih]

theorem saveById_findById {α : Type} (db : List (Nat × α)) (k : Nat) (v : α)
    (h : findById db k = some v) : saveById db k v = db := by
  induction db with
  | nil => simp [saveById]
  | cons hd tl ih =>
    obtain ⟨k0, v0⟩ := hd
    by_cases hk : k0 = k
    · subst hk
      simp [findById] at h
      simp [saveById, h]
    · simp [findById, hk] at h
      simp [saveById, hk, ih h]

theorem saveById_saveById {α : Type} (db : List (Nat × α)) (k : Nat)
    (a b : α) : saveById (saveById db k a) k b = saveById db k b := by
  induction db with
  | nil => simp [saveById]
  | cons hd tl ih =>
    obtain ⟨k0, v0⟩ := hd
    by_cases hk : k0 = k
    · subst hk
      simp [saveById]
    · simp [saveById, hk, ih]

/-- Releasing exactly what a successful `reserve` took restores the stocks. -/
theorem release_reserve (stocks s' : Stocks) (pid : Nat) (q : Int)
    (h : reserve stocks pid q = some s') : release s' pid q = stocks := by
  cases hf : findById stocks pid with
  | none => simp [reserve, hf] at h
  | some s =>
    by_cases hq : q ≤ s
    · simp [reserve, hf, hq] at h
      subst h
      simp [release, findById_saveById_self stocks pid s (s - q) hf]
      rw [saveById_saveById]
      exact saveById_findById stocks pid s hf
    · simp [reserve, hf, hq] at h

/-- When the reservation loop fails, the rollback restores the stocks it
started from. -/
theorem reserveAll_error_eq (items : List LineItem) (stocks s : Stocks)
    (h : reserveAll stocks items = Except.error s) : s = stocks := by
  induction items generalizing stocks s with
  | nil => simp [reserveAll] at h
  | cons it rest ih =>
    cases hr : reserve stocks it.productId it.quantity with
    | none =>
      simp [reserveAll, hr] at h
      exact h.symm
    | some s' =>
      cases hra : reserveAll s' rest with
      | error sFail =>
        simp [reserveAll, hr, hra] at h
        have hfail : sFail = s' := ih s' sFail hra
        rw [← h, hfail]
        exact release_reserve stocks s' it.productId it.quantity hr
      | ok sDone =>
        simp [reserveAll, hr, hra] at h

/-- Claim C7: order creation is all-or-nothing over its line items — whenever
`createOrder` returns `InsufficientStock`, every reservation made for earlier
line items of that call has been released, and the resulting stocks equal the
stocks before the call. -/
theorem createOrder_insufficientStock_rollback (stocks : Stocks)
    (items : List LineItem) (s : Stocks)
    (h : createOrder stocks items = CreateResult.insufficientStock s) :
    s = stocks := by
  by_cases hv : items.all (validItem stocks) = true
  · cases hra : reserveAll stocks items with
    | error s0 =>
      simp [createOrder, hv, hra] at h
      subst h
      exact reserveAll_error_eq items stocks s0 hra
    | ok s1 =>
      simp [createOrder, hv, hra] at h
  · simp [createOrder, hv] at h

/-- Witness for C7: product 2 has stock 0, so reserving the second line item
fails after the first succeeded; the call returns `InsufficientStock` with the
stocks rolled back to their initial values. -/
theorem createOrder_insufficientStock_rollback_witness :
    createOrder [(1, 1), (2, 0)] [⟨1, 1⟩, ⟨2, 1⟩]
      = CreateResult.insufficientStock [(1, 1), (2, 0)] ∧
    ([(1, 1), (2, 0)] : Stocks) = [(1, 1), (2, 0)] :=
  ⟨by decide,
   createOrder_insufficientStock_rollback [(1, 1), (2, 0)] [⟨1, 1⟩, ⟨2, 1⟩]
     [(1, 1), (2, 0)] (by decide)⟩

/-! Concrete instances used by counterexamples and witnesses. -/

/-- A concrete stand-in for the HMAC-SHA256 hex primitive, used only to
instantiate theorems at concrete inputs. -/
def hmacDemo : String → String → String := fun key msg => key ++ "|" ++ msg

/-- A concrete authenticated caller. -/
def userDemo : AuthUser := { email := "u@example.com" }

/-- A concrete order that has already been paid at time 5. -/
def orderPaidDemo : Order :=
  { isPaid := true
    paidAt := some 5
    status := OrderStatus.paid
    paymentResult := some
      { id := "p1", status := "success", update_time := 5,
        email_address := "u@example.com" } }

/-- A one-order collection holding `orderPaidDemo` under id 1. -/
def dbPaidDemo : OrdersDb := [(1, orderPaidDemo)]

/-- A verification request for order 1 whose signature is valid for
`hmacDemo` with secret "k". -/
def bodyDemo : VerificationBody :=
  { razorpay_order_id := "r1"
    razorpay_payment_id := "p1"
    razorpay_signature := "k|r1|p1"
    orderId := 1
    email := "body@example.com" }

/-- A verification request for an order id (7) that no collection in the
examples holds, with a signature valid for `hmacDemo` with secret "k". -/
def bodyNoOrderDemo : VerificationBody :=
  { razorpay_order_id := "r1"
    razorpay_payment_id := "p1"
    razorpay_signature := "k|r1|p1"
    orderId := 7
    email := "body@example.com" }

/-- A verification request for order 1 with a tampered signature. -/
def bodyBadSigDemo : VerificationBody :=
  { razorpay_order_id := "r1"
    razorpay_payment_id := "p1"
    razorpay_signature := "bogus"
    orderId := 1
    email := "body@example.com" }

/-- Claim C1, counterexample: repeating a valid confirmation on an order that
is already paid (paid at time 5) does not return a distinct AlreadyConfirmed
result and is not a no-op — the controller answers with the ordinary success
message and overwrites the paid-timestamp with the new time 10. -/
theorem paymentVerification_not_idempotent :
    (paymentVerification hmacDemo "k" 10 userDemo dbPaidDemo bodyDemo).1.message
      = "Payment verified and Order Updated" ∧
    (findById dbPaidDemo 1).map Order.paidAt = some (some 5) ∧
    (findById (paymentVerification hmacDemo "k" 10 userDemo dbPaidDemo bodyDemo).2 1).map
        Order.paidAt = some (some 10) := by
  decide

/-- Claim C1, amended: a repeated valid confirmation of an already-paid order
returns the same 200 success response as the first one (there is no
AlreadyConfirmed result), and re-applies the mutation — `paidAt` and
`paymentResult` are overwritten with the repeated call's time and data. -/
theorem paymentVerification_repeat_overwrites
    (hmac : String → String → String) (secret : String) (now : Nat)
    (user : AuthUser) (db : OrdersDb) (body : VerificationBody) (o : Order)
    (hfound : findById db body.orderId = some o)
    (hpaid : o.isPaid = true)
    (hsig : hmac secret (body.razorpay_order_id ++ "|" ++ body.razorpay_payment_id)
      = body.razorpay_signature) :
    (paymentVerification hmac secret now user db body).1
      = { status := 200, success := true,
          message := "Payment verified and Order Updated" } ∧
    findById (paymentVerification hmac secret now user db body).2 body.orderId
      = some { o with
                 isPaid := true
                 paidAt := some now
                 paymentResult := some
                   { id := body.razorpay_payment_id, status := "success",
                     update_time := now, email_address := user.email } } := by
  constructor
  · simp [paymentVerification, hsig, hfound]
  · simp [paymentVerification, hsig, hfound]
    exact findById_saveById_self db body.orderId o _ hfound

/-- Witness for the amended C1 at a concrete already-paid order. -/
theorem paymentVerification_repeat_overwrites_witness :
    (paymentVerification hmacDemo "k" 10 userDemo dbPaidDemo bodyDemo).1
      = { status := 200, success := true,
          message := "Payment verified and Order Updated" } ∧
    findById (paymentVerification hmacDemo "k" 10 userDemo dbPaidDemo bodyDemo).2 1
      = some { orderPaidDemo with
                 isPaid := true
                 paidAt := some 10
                 paymentResult := some
                   { id := "p1", status := "success", update_time := 10,
                     email_address := "u@example.com" } } :=
  paymentVerification_repeat_overwrites hmacDemo "k" 10 userDemo dbPaidDemo bodyDemo
    orderPaidDemo (by decide) (by decide) (by decide)

/-- Claim C2, counterexample: a valid-signature confirmation naming an order
id (7) held by no stored order (the collection is empty) is answered with
HTTP 200 and `success`, not with a 404 OrderNotFound. -/
theorem paymentVerification_missing_order_200 :
    (paymentVerification hmacDemo "k" 0 userDemo [] bodyNoOrderDemo).1.status = 200 ∧
    (paymentVerification hmacDemo "k" 0 userDemo [] bodyNoOrderDemo).1.success = true := by
  decide

/-- Claim C2, amended: when the orderId matches no stored order and the
signature is valid, the operation still answers 200 with the ordinary success
message and leaves the collection unchanged; the code has no OrderNotFound
(404) path. -/
theorem paymentVerification_missing_order_behaviour
    (hmac : String → String → String) (secret : String) (now : Nat)
    (user : AuthUser) (db : OrdersDb) (body : VerificationBody)
    (hnone : findById db body.orderId = none)
    (hsig : hmac secret (body.razorpay_order_id ++ "|" ++ body.razorpay_payment_id)
      = body.razorpay_signature) :
    (paymentVerification hmac secret now user db body).1
      = { status := 200, success := true,
          message := "Payment verified and Order Updated" } ∧
    (paymentVerification hmac secret now user db body).2 = db := by
  simp [paymentVerification, hsig, hnone]

/-- Witness for the amended C2 on the empty collection. -/
theorem paymentVerification_missing_order_behaviour_witness :
    (paymentVerification hmacDemo "k" 0 userDemo [] bodyNoOrderDemo).1
      = { status := 200, success := true,
          message := "Payment verified and Order Updated" } ∧
    (paymentVerification hmacDemo "k" 0 userDemo [] bodyNoOrderDemo).2 = [] :=
  paymentVerification_missing_order_behaviour hmacDemo "k" 0 userDemo []
    bodyNoOrderDemo (by decide) (by decide)

/-- Claim C3: the verification accepts (answers a `success` response) iff the
supplied signature equals the hex HMAC-SHA256 of
`razorpay_order_id ++ "|" ++ razorpay_payment_id` keyed with the shared
secret (the digest primitive is the `hmac` parameter); when they differ the
operation answers 400 with the Invalid Signature message. -/
theorem paymentVerification_signature_check
    (hmac : String → String → String) (secret : String) (now : Nat)
    (user : AuthUser) (db : OrdersDb) (body : VerificationBody) :
    ((paymentVerification hmac secret now user db body).1.success = true
      ↔ body.razorpay_signature
          = hmac secret (body.razorpay_order_id ++ "|" ++ body.razorpay_payment_id)) ∧
    (body.razorpay_signature
        ≠ hmac secret (body.razorpay_order_id ++ "|" ++ body.razorpay_payment_id) →
      (paymentVerification hmac secret now user db body).1
        = { status := 400, success := false, message := "Invalid Signature" }) := by
  by_cases hsig : hmac secret (body.razorpay_order_id ++ "|" ++ body.razorpay_payment_id)
      = body.razorpay_signature
  · refine ⟨iff_of_true ?_ hsig.symm, fun hne => absurd hsig.symm hne⟩
    cases hfound : findById db body.orderId <;>
      simp [paymentVerification, hsig, hfound]
  · have hne : body.razorpay_signature
        ≠ hmac secret (body.razorpay_order_id ++ "|" ++ body.razorpay_payment_id) :=
      fun e => hsig e.symm
    exact ⟨by simp [paymentVerification, hsig, hne],
           fun _ => by simp [paymentVerification, hsig]⟩

/-- Witness for C3 at a tampered signature: the response is the 400 Invalid
Signature one. -/
theorem paymentVerification_signature_check_witness :
    (paymentVerification hmacDemo "k" 0 userDemo dbPaidDemo bodyBadSigDemo).1
      = { status := 400, success := false, message := "Invalid Signature" } :=
  (paymentVerification_signature_check hmacDemo "k" 0 userDemo dbPaidDemo
    bodyBadSigDemo).2 (by decide)

/-- Claim C5: a confirmation whose signature fails verification is answered
with 400 Invalid Signature and leaves all state unchanged — the orders
collection (every order's status, isPaid flag, paid time and payment record)
is returned exactly as it was.  Product stock is untouched a fortiori: the
controller's only state is the orders collection; it never reads or writes the
product collection. -/
theorem paymentVerification_invalid_signature_no_mutation
    (hmac : String → String → String) (secret : String) (now : Nat)
    (user : AuthUser) (db : OrdersDb) (body : VerificationBody)
    (hne : body.razorpay_signature
      ≠ hmac secret (body.razorpay_order_id ++ "|" ++ body.razorpay_payment_id)) :
    (paymentVerification hmac secret now user db body).1
      = { status := 400, success := false, message := "Invalid Signature" } ∧
    (paymentVerification hmac secret now user db body).2 = db := by
  have hsig : ¬hmac secret (body.razorpay_order_id ++ "|" ++ body.razorpay_payment_id)
      = body.razorpay_signature := fun e => hne e.symm
  simp [paymentVerification, hsig]

/-- Witness for C5 at a concrete tampered signature. -/
theorem paymentVerification_invalid_signature_no_mutation_witness :
    (paymentVerification hmacDemo "k" 0 userDemo dbPaidDemo bodyBadSigDemo).1
      = { status := 400, success := false, message := "Invalid Signature" } ∧
    (paymentVerification hmacDemo "k" 0 userDemo dbPaidDemo bodyBadSigDemo).2
      = dbPaidDemo :=
  paymentVerification_invalid_signature_no_mutation hmacDemo "k" 0 userDemo
    dbPaidDemo bodyBadSigDemo (by decide)

/-- Claim C6: on a successful confirmation the contact recorded in the payment
record is the authenticated caller's email, never a body field — and two
requests that agree on every field the controller reads but differ in a
body-supplied contact field produce identical responses and identical
collections. -/
theorem paymentVerification_contact_from_auth
    (hmac : String → String → String) (secret : String) (now : Nat)
    (user : AuthUser) (db : OrdersDb) (a p sg : String) (i : Nat)
    (e1 e2 : String) (o : Order)
    (hfound : findById db i = some o)
    (hsig : hmac secret (a ++ "|" ++ p) = sg) :
    findById (paymentVerification hmac secret now user db
        { razorpay_order_id := a, razorpay_payment_id := p,
          razorpay_signature := sg, orderId := i, email := e1 }).2 i
      = some { o with
                 isPaid := true
                 paidAt := some now
                 paymentResult := some
                   { id := p, status := "success", update_time := now,
                     email_address := user.email } } ∧
    paymentVerification hmac secret now user db
        { razorpay_order_id := a, razorpay_payment_id := p,
          razorpay_signature := sg, orderId := i, email := e1 }
      = paymentVerification hmac secret now user db
        { razorpay_order_id := a, razorpay_payment_id := p,
          razorpay_signature := sg, orderId := i, email := e2 } := by
  constructor
  · simp [paymentVerification, hsig, hfound]
    exact findById_saveById_self db i o _ hfound
  · rfl

/-- Witness for C6: two concrete requests differing only in the body contact
field update order 1 identically, recording the caller's email. -/
theorem paymentVerification_contact_from_auth_witness :
    findById (paymentVerification hmacDemo "k" 10 userDemo dbPaidDemo
        { razorpay_order_id := "r1", razorpay_payment_id := "p1",
          razorpay_signature := "k|r1|p1", orderId := 1,
          email := "alice@body" }).2 1
      = some { orderPaidDemo with
                 isPaid := true
                 paidAt := some 10
                 paymentResult := some
                   { id := "p1", status := "success", update_time := 10,
                     email_address := "u@example.com" } } ∧
    paymentVerification hmacDemo "k" 10 userDemo dbPaidDemo
        { razorpay_order_id := "r1", razorpay_payment_id := "p1",
          razorpay_signature := "k|r1|p1", orderId := 1,
          email := "alice@body" }
      = paymentVerification hmacDemo "k" 10 userDemo dbPaidDemo
        { razorpay_order_id := "r1", razorpay_payment_id := "p1",
          razorpay_signature := "k|r1|p1", orderId := 1,
          email := "bob@body" } :=
  paymentVerification_contact_from_auth hmacDemo "k" 10 userDemo dbPaidDemo
    "r1" "p1" "k|r1|p1" 1 "alice@body" "bob@body" orderPaidDemo
    (by decide) (by decide)

/-- Claim C8: the `isPaid` flag is monotonic — across every operation of the
system (payment verification from the source; administrative status update
modelled from the spec), an order whose `isPaid` is true before the step still
has it true after. -/
theorem isPaid_monotonic (db db' : OrdersDb) (step : SysStep db db') (i : Nat)
    (o o' : Order) (ho : findById db i = some o)
    (ho' : findById db' i = some o') (hpaid : o.isPaid = true) :
    o'.isPaid = true := by
  cases step with
  | payment hmac secret now user body =>
    by_cases hsig : hmac secret (body.razorpay_order_id ++ "|" ++ body.razorpay_payment_id)
        = body.razorpay_signature
    · cases hfound : findById db body.orderId with
      | none =>
        simp [paymentVerification, hsig, hfound] at ho'
        rw [ho] at ho'
        injection ho' with ho'
        rw [← ho']
        exact hpaid
      | some ord =>
        simp [paymentVerification, hsig, hfound] at ho'
        by_cases hi : i = body.orderId
        · rw [hi] at ho'
          rw [findById_saveById_self db body.orderId ord _ hfound] at ho'
          injection ho' with ho'
          simp [← ho']
        · rw [findById_saveById_ne db body.orderId i _ hi, ho] at ho'
          injection ho' with ho'
          rw [← ho']
          exact hpaid
    · simp [paymentVerification, hsig] at ho'
      rw [ho] at ho'
      injection ho' with ho'
      rw [← ho']
      exact hpaid
  | adminStatus orderId target =>
    cases hfound : findById db orderId with
    | none =>
      simp [updateOrderStatus, hfound] at ho'
      rw [ho] at ho'
      injection ho' with ho'
      rw [← ho']
      exact hpaid
    | some ord =>
      by_cases htr : immediateSuccessor ord.status = some target
      · simp [updateOrderStatus, hfound, htr] at ho'
        by_cases hi : i = orderId
        · rw [hi] at ho ho'
          rw [findById_saveById_self db orderId ord _ hfound] at ho'
          injection ho' with ho'
          rw [ho] at hfound
          injection hfound with hfound
          have hiord : ord.isPaid = true := hfound ▸ hpaid
          simp [← ho', hiord]
        · rw [findById_saveById_ne db orderId i _ hi, ho] at ho'
          injection ho' with ho'
          rw [← ho']
          exact hpaid
      · simp [updateOrderStatus, hfound, htr] at ho'
        rw [ho] at ho'
        injection ho' with ho'
        rw [← ho']
        exact hpaid

/-- Witness for C8: the administrative step moving the concrete paid order 1
from `Paid` to `Processing` leaves its `isPaid` flag true. -/
theorem isPaid_monotonic_witness :
    ({ orderPaidDemo with status := OrderStatus.processing } : Order).isPaid = true :=
  isPaid_monotonic dbPaidDemo
    (updateOrderStatus dbPaidDemo 1 OrderStatus.processing).2
    (SysStep.adminStatus 1 OrderStatus.processing dbPaidDemo) 1 orderPaidDemo
    { orderPaidDemo with status := OrderStatus.processing }
    (by decide) (by decide) (by decide)

/-- Claim C9: `reserve` (modelled from the spec, §4.1) is a conditional
decrement applied as one atomic step — for a product holding stock `v` it
succeeds iff `v` is at least the requested quantity, on success it leaves that
product with the non-negative stock `v - q` and every other product unchanged,
and when two requests race for the last unit (`v = 1`, `q = 1`) whichever is
serialized first succeeds and the other, running from the resulting state,
receives `InsufficientStock`. -/
theorem reserve_conditional_decrement (stocks : Stocks) (pid : Nat) (v q : Int)
    (hf : findById stocks pid = some v) (hq : 0 < q) :
    ((reserve stocks pid q).isSome ↔ q ≤ v) ∧
    (∀ s', reserve stocks pid q = some s' →
      findById s' pid = some (v - q) ∧ 0 ≤ v - q ∧
      ∀ p, p ≠ pid → findById s' p = findById stocks p) ∧
    (v = 1 → q = 1 → ∀ s', reserve stocks pid q = some s' →
      reserve s' pid q = none) := by
  refine ⟨?_, ?_, ?_⟩
  · by_cases hqv : q ≤ v <;> simp [reserve, hf, hqv]
  · intro s' hs'
    by_cases hqv : q ≤ v
    · simp [reserve, hf, hqv] at hs'
      subst hs'
      exact ⟨findById_saveById_self stocks pid v _ hf, by linarith,
             fun p hp => findById_saveById_ne stocks pid p _ hp⟩
    · simp [reserve, hf, hqv] at hs'
  · rintro rfl rfl s' hs'
    simp [reserve, hf] at hs'
    subst hs'
    have h0 : findById (saveById stocks pid 0) pid = some 0 :=
      findById_saveById_self stocks pid 1 0 hf
    simp [reserve, h0]

/-- Witness for C9 on a one-product ledger holding the last unit. -/
theorem reserve_conditional_decrement_witness :
    ((reserve [(1, 1)] 1 1).isSome ↔ (1 : Int) ≤ 1) ∧
    (∀ s', reserve [(1, 1)] 1 1 = some s' →
      findById s' 1 = some ((1 : Int) - 1) ∧ (0 : Int) ≤ 1 - 1 ∧
      ∀ p, p ≠ 1 → findById s' p = findById [(1, (1 : Int))] p) ∧
    ((1 : Int) = 1 → (1 : Int) = 1 → ∀ s', reserve [(1, 1)] 1 1 = some s' →
      reserve s' 1 1 = none) :=
  reserve_conditional_decrement [(1, 1)] 1 1 1 (by decide) (by decide)

/-- Claim C10: `checkout` builds the gateway order from the client-supplied
body amount alone — the intent amount is `Number(amount * 100)` (the
conversion to paise), the currency is fixed to "INR", and the result does not
depend on the stored orders, so no comparison with any stored order's total
takes place. -/
theorem checkout_amount_from_body (db db' : OrdersDb) (now : Nat)
    (amount : Int) :
    (checkout db now amount).amount = amount * 100 ∧
    (checkout db now amount).currency = "INR" ∧
    checkout db now amount = checkout db' now amount :=
  ⟨rfl, rfl, rfl⟩

end NightySale
